import Mathlib

/-!
Shallow embedding of the CEX-listing update script of
tracktivity-notifications (src/update-listings.ts).

Modelling conventions:
* Timestamps are integers (milliseconds since the epoch).  A JavaScript
  `Date` value is modelled as `Option Int`: `some t` is a valid instant,
  `none` is an Invalid Date (whose numeric value is NaN, so that every
  ordering comparison against it is false, as in JavaScript).
* `new Date(listing.detectedAt)` — the parse of the stored `detectedAt`
  string — is modelled by storing the parse result itself in the
  `detectedAt` field: `some t` when the string parses, `none` when it
  does not.
* `cutoffDate.setDate(cutoffDate.getDate() - RETENTION_DAYS)` is modelled
  as subtracting `RETENTION_DAYS` days of `dayMs` milliseconds from `now`.
* The per-exchange fetchers are external I/O; a fetch outcome is an
  `Except String (List String)`: `ok symbols` on success, `error e` when
  the fetch threw (the payload is the stringified thrown error).
* `readJSON` on the two prior-state documents is likewise fallible and is
  modelled by `Except String` inputs; the surrounding try/catch of
  `updateListings` becomes a `match` on those inputs.  The status document
  read used for carrying `lastSuccessfulRun` forward is modelled as an
  always-available `StatusData` value.
* The JavaScript `Set` built from the normalized old symbols is modelled
  as the normalized list together with `List.contains`, which decides
  exactly the same membership.
* File writes are recorded in a `RunOutput` record: `none` means the
  document was never written during the run.
-/

/-- The separator characters removed by `normalizeSymbol`
(the regex `/[-_\/]/g` of the source). -/
def isSeparator (c : Char) : Bool :=
  c == '-' || c == '_' || c == '/'

/-- `normalizeSymbol` of the source: replace every separator-regex match by
the empty string, then `toUpperCase`.  Separators are deleted, then the
remaining characters are upper-cased. -/
def normalizeSymbol (symbol : String) : String :=
  String.mk ((symbol.data.filter (fun c => !isSeparator c)).map Char.toUpper)

/-- Modelled from the spec: the Symbol Normalizer contract stated as one
character-by-character pass — every separator (hyphen, underscore, forward
slash) is removed and every remaining character is upper-cased.  Used only
to compare `normalizeSymbol` against the spec wording. -/
def normalizerContract : List Char → List Char
  | [] => []
  | c :: cs =>
    if isSeparator c then normalizerContract cs
    else Char.toUpper c :: normalizerContract cs

/-- A `NewListing` record of the source (`exchange`, `symbol`, `detectedAt`).
`detectedAt` holds the parse of the stored timestamp string: `none` models a
string that `new Date` cannot parse (an Invalid Date). -/
structure NewListing where
  exchange : String
  symbol : String
  detectedAt : Option Int
deriving DecidableEq, Repr

/-- JavaScript `a >= b` on two `Date` values: false whenever either side is
an Invalid Date (NaN compares false), otherwise integer comparison. -/
def jsDateGe : Option Int → Option Int → Bool
  | some a, some b => decide (b ≤ a)
  | _, _ => false

/-- `RETENTION_DAYS = 30` of the source. -/
def RETENTION_DAYS : Int := 30

/-- Milliseconds in one day. -/
def dayMs : Int := 86400000

/-- `detectNewListings(oldSymbols, newSymbols, exchangeName)` of the source:
build the set of normalized old symbols; for each raw new symbol, emit a
listing (raw symbol, exchange, current timestamp `now`) exactly when its
normalized form is not in that set. -/
def detectNewListings (oldSymbols newSymbols : List String)
    (exchangeName : String) (now : Int) : List NewListing :=
  let oldNormalized := oldSymbols.map normalizeSymbol
  newSymbols.filterMap (fun symbol =>
    let normalized := normalizeSymbol symbol
    if oldNormalized.contains normalized then none
    else some { exchange := exchangeName, symbol := symbol, detectedAt := some now })

/-- `cleanOldListings(listings)` of the source: keep the listings whose
`new Date(detectedAt)` is `>=` the cutoff `now - RETENTION_DAYS` days. -/
def cleanOldListings (now : Int) (listings : List NewListing) : List NewListing :=
  let cutoffDate : Int := now - RETENTION_DAYS * dayMs
  listings.filter (fun listing => jsDateGe listing.detectedAt (some cutoffDate))

/-- The per-exchange symbol lists of the snapshot document
(the `exchanges` field of the `ExchangeListings` interface of the source). -/
structure Exchanges where
  binance : List String
  coinbase : List String
  bybit : List String
  upbit : List String
  okx : List String
  kraken : List String
deriving DecidableEq, Repr

/-- The `cex-listings.json` document (`ExchangeListings` of the source). -/
structure ExchangeListings where
  lastUpdated : Option Int
  exchanges : Exchanges
deriving DecidableEq, Repr

/-- The `new-listings.json` document (`NewListingsData` of the source). -/
structure NewListingsData where
  lastChecked : Option Int
  listings : List NewListing
deriving DecidableEq, Repr

/-- The `status.json` document (`StatusData` of the source).  The status tag
is the literal string of the source: one of `"success"`, `"partial_success"`,
`"failed"`, `"never_run"`. -/
structure StatusData where
  lastRun : Option Int
  lastSuccessfulRun : Option Int
  status : String
  errors : List String
deriving DecidableEq, Repr

/-- The outcome of the six fetchers for one run: for each exchange, the
symbol list on success or the stringified thrown error on failure. -/
structure FetchResults where
  binance : Except String (List String)
  coinbase : Except String (List String)
  bybit : Except String (List String)
  upbit : Except String (List String)
  okx : Except String (List String)
  kraken : Except String (List String)
deriving Repr

/-- What one run writes: the snapshot and listing-log documents (absent when
the run never reached their write), the status document (always written),
and whether the run re-threw an error to its caller. -/
structure RunOutput where
  writtenListings : Option ExchangeListings
  writtenNewListings : Option NewListingsData
  writtenStatus : StatusData
  rethrown : Bool
deriving DecidableEq, Repr

/-- One per-exchange block of `updateListings`, snapshot side: on success
`results.x = fetched`, on failure `results.x = oldListings.exchanges.x`
(keep old data). -/
def fetchOutcome (fetched : Except String (List String))
    (oldList : List String) : List String :=
  match fetched with
  | .ok symbols => symbols
  | .error _ => oldList

/-- One per-exchange block of `updateListings`, error side: on failure the
block pushes the single message `` `${name}: ${error}` `` onto `errors`. -/
def exchangeError (name : String) :
    Except String (List String) → List String
  | .ok _ => []
  | .error e => [name ++ ": " ++ e]

/-- One per-exchange block of `updateListings`, detection side: on success
the block appends `detectNewListings(old, fetched, name)`; on failure it
appends nothing. -/
def exchangeDetected (oldList : List String) (name : String) (now : Int) :
    Except String (List String) → List NewListing
  | .ok symbols => detectNewListings oldList symbols name now
  | .error _ => []

/-- The `errors` accumulator after the six sequential per-exchange blocks,
in the fixed source order Binance, Coinbase, Bybit, Upbit, OKX, Kraken. -/
def runErrors (f : FetchResults) : List String :=
  exchangeError "Binance" f.binance ++ exchangeError "Coinbase" f.coinbase ++
  exchangeError "Bybit" f.bybit ++ exchangeError "Upbit" f.upbit ++
  exchangeError "OKX" f.okx ++ exchangeError "Kraken" f.kraken

/-- The `results` record after the six per-exchange blocks. -/
def runResults (old : Exchanges) (f : FetchResults) : Exchanges where
  binance := fetchOutcome f.binance old.binance
  coinbase := fetchOutcome f.coinbase old.coinbase
  bybit := fetchOutcome f.bybit old.bybit
  upbit := fetchOutcome f.upbit old.upbit
  okx := fetchOutcome f.okx old.okx
  kraken := fetchOutcome f.kraken old.kraken

/-- The `allNewListings` accumulator after the six per-exchange blocks. -/
def runDetected (old : Exchanges) (f : FetchResults) (now : Int) : List NewListing :=
  exchangeDetected old.binance "Binance" now f.binance ++
  exchangeDetected old.coinbase "Coinbase" now f.coinbase ++
  exchangeDetected old.bybit "Bybit" now f.bybit ++
  exchangeDetected old.upbit "Upbit" now f.upbit ++
  exchangeDetected old.okx "OKX" now f.okx ++
  exchangeDetected old.kraken "Kraken" now f.kraken

/-- The body of the `try` block of `updateListings` after the two prior-state
reads succeeded: run the six per-exchange blocks, write the snapshot document,
merge-and-prune the listing log and write it, then compute and write the
status document.  `startTime` is the timestamp captured on entry; `now`
stands for the `new Date()` instants taken later in the run. -/
def updateListingsRun (startTime now : Int) (oldListings : ExchangeListings)
    (newListingsData : NewListingsData) (priorStatus : StatusData)
    (f : FetchResults) : RunOutput :=
  let errors := runErrors f
  let updatedListings : ExchangeListings :=
    { lastUpdated := some now, exchanges := runResults oldListings.exchanges f }
  let combinedListings := newListingsData.listings ++ runDetected oldListings.exchanges f now
  let cleanedListings := cleanOldListings now combinedListings
  let status : StatusData :=
    { lastRun := some startTime
      lastSuccessfulRun :=
        if errors.length = 0 then some startTime else priorStatus.lastSuccessfulRun
      status :=
        if errors.length = 0 then "success"
        else if errors.length < 6 then "partial_success"
        else "failed"
      errors := errors }
  { writtenListings := some updatedListings
    writtenNewListings := some { lastChecked := some now, listings := cleanedListings }
    writtenStatus := status
    rethrown := false }

/-- The `catch` block of `updateListings`: write a failed status with a single
synthetic `Critical:` error and the carried-forward `lastSuccessfulRun`, touch
no other document, and re-throw. -/
def criticalFailure (startTime : Int) (priorStatus : StatusData)
    (e : String) : RunOutput :=
  { writtenListings := none
    writtenNewListings := none
    writtenStatus :=
      { lastRun := some startTime
        lastSuccessfulRun := priorStatus.lastSuccessfulRun
        status := "failed"
        errors := ["Critical: " ++ e] }
    rethrown := true }

/-- `updateListings` of the source: the two prior-state reads (first the
snapshot document, then the listing log) may throw, in which case control
reaches the catch block; otherwise the try body runs to completion. -/
def updateListings (startTime now : Int)
    (priorListings : Except String ExchangeListings)
    (priorNewListings : Except String NewListingsData)
    (priorStatus : StatusData) (f : FetchResults) : RunOutput :=
  match priorListings, priorNewListings with
  | .error e, _ => criticalFailure startTime priorStatus e
  | .ok _, .error e => criticalFailure startTime priorStatus e
  | .ok oldListings, .ok newListingsData =>
    updateListingsRun startTime now oldListings newListingsData priorStatus f

/-- Number of failed fetches among the six exchanges. -/
def failCount : Except String (List String) → Nat
  | .ok _ => 0
  | .error _ => 1

/-- Total number of failed fetches in one run. -/
def countFailures (f : FetchResults) : Nat :=
  failCount f.binance + failCount f.coinbase + failCount f.bybit +
  failCount f.upbit + failCount f.okx + failCount f.kraken

theorem exchangeError_length (name : String) (r : Except String (List String)) :
    (exchangeError name r).length = failCount r := by
  cases r <;> rfl

theorem runErrors_length (f : FetchResults) :
    (runErrors f).length = countFailures f := by
  simp only [runErrors, countFailures, List.length_append, exchangeError_length]

theorem filterMap_if_map {α β : Type} (p : α → Bool) (g : α → β) (l : List α) :
    l.filterMap (fun a => if p a then none else some (g a)) =
      (l.filter (fun a => !p a)).map g := by
  induction l with
  | nil => rfl
  | cons a rest ih =>
    rw [List.filterMap_cons, List.filter_cons]
    cases h : p a
    · simp [h, ih]
    · simp [h, ih]

theorem detect_eq_filter_map (old new : List String) (ex : String) (now : Int) :
    detectNewListings old new ex now =
      (new.filter (fun s => !((old.map normalizeSymbol).contains (normalizeSymbol s)))).map
        (fun s => { exchange := ex, symbol := s, detectedAt := some now }) :=
  filterMap_if_map _ _ new

theorem detect_symbols (old new : List String) (ex : String) (now : Int) :
    (detectNewListings old new ex now).map (fun l => l.symbol) =
      new.filter (fun s => !((old.map normalizeSymbol).contains (normalizeSymbol s))) := by
  rw [detect_eq_filter_map, List.map_map]
  exact List.map_id _

theorem detect_eq_nil_of_covered (old new : List String) (ex : String) (now : Int)
    (h : ∀ s ∈ new, normalizeSymbol s ∈ old.map normalizeSymbol) :
    detectNewListings old new ex now = [] := by
  rw [detect_eq_filter_map]
  have hnil : new.filter
      (fun s => !((old.map normalizeSymbol).contains (normalizeSymbol s))) = [] := by
    rw [List.filter_eq_nil_iff]
    intro s hs
    simp [h s hs]
  rw [hnil, List.map_nil]

theorem normalize_chars (l : List Char) :
    (l.filter (fun c => !isSeparator c)).map Char.toUpper = normalizerContract l := by
  induction l with
  | nil => rfl
  | cons c cs ih =>
    rw [List.filter_cons]
    cases h : isSeparator c
    · simp [normalizerContract, h, ih]
    · simp [normalizerContract, h, ih]

/-- C2: detectNewListings emits one ListingEvent per element of newSymbols
whose normalized form is absent from the set of normalized forms of
oldSymbols, carrying the raw new-side symbol and the exchange id, in the
order of newSymbols; on (["BTCUSDT"], ["BTCUSDT","ETHUSDT"], "Binance") it
yields exactly one event, for raw symbol ETHUSDT on exchange Binance. -/
theorem claim_C2_detect_new_listings :
    (∀ (old new : List String) (ex : String) (now : Int),
      detectNewListings old new ex now =
        (new.filter (fun s => !((old.map normalizeSymbol).contains (normalizeSymbol s)))).map
          (fun s => { exchange := ex, symbol := s, detectedAt := some now })) ∧
    (∀ now : Int,
      detectNewListings ["BTCUSDT"] ["BTCUSDT", "ETHUSDT"] "Binance" now =
        [{ exchange := "Binance", symbol := "ETHUSDT", detectedAt := some now }]) :=
  ⟨detect_eq_filter_map, fun _ => rfl⟩

/-- C7: detectNewListings returns the empty sequence whenever every new
normalized form of every new symbol is already covered by the old list; in particular
detect(old, old, x) is empty, and re-running detect against an old set
extended with the previously detected raw symbols yields no further
events. -/
theorem claim_C7_no_self_diff :
    (∀ (old : List String) (ex : String) (now : Int),
      detectNewListings old old ex now = []) ∧
    (∀ (old new : List String) (ex : String) (now : Int),
      (∀ s ∈ new, normalizeSymbol s ∈ old.map normalizeSymbol) →
      detectNewListings old new ex now = []) ∧
    (∀ (old new : List String) (ex : String) (now now2 : Int),
      detectNewListings
        (old ++ (detectNewListings old new ex now).map (fun l => l.symbol))
        new ex now2 = []) := by
  refine ⟨?_, ?_, ?_⟩
  · intro old ex now
    exact detect_eq_nil_of_covered old old ex now
      (fun s hs => List.mem_map_of_mem normalizeSymbol hs)
  · intro old new ex now h
    exact detect_eq_nil_of_covered old new ex now h
  · intro old new ex now now2
    apply detect_eq_nil_of_covered
    intro s hs
    rw [List.map_append]
    by_cases h : normalizeSymbol s ∈ old.map normalizeSymbol
    · exact List.mem_append_left _ h
    · apply List.mem_append_right
      apply List.mem_map_of_mem
      rw [detect_symbols, List.mem_filter]
      refine ⟨hs, ?_⟩
      simp [h]

/-- Witness for C7 at a concrete input: the example of the spec where
detect(["BTC-USD"], ["BTCUSD"], "Coinbase") is empty because normalization
collapses the separator difference. -/
theorem claim_C7_witness :
    detectNewListings ["BTC-USD"] ["BTCUSD"] "Coinbase" 0 = [] := by
  have h : ∀ s ∈ ["BTCUSD"],
      normalizeSymbol s ∈ (["BTC-USD"] : List String).map normalizeSymbol := by decide
  exact claim_C7_no_self_diff.2.1 ["BTC-USD"] ["BTCUSD"] "Coinbase" 0 h

/-- C8: normalizeSymbol is the pure total function that deletes every
hyphen, underscore and forward slash and upper-cases the remaining
characters (stated against the spec-worded single pass
`normalizerContract`); it is deterministic, and
normalize("BTC-USD") = normalize("BTCUSD") = "BTCUSD". -/
theorem claim_C8_normalize_symbol :
    (∀ a : String, (normalizeSymbol a).data = normalizerContract a.data) ∧
    (∀ a : String, normalizeSymbol a = normalizeSymbol a) ∧
    normalizeSymbol "BTC-USD" = "BTCUSD" ∧
    normalizeSymbol "BTCUSD" = "BTCUSD" :=
  ⟨fun a => normalize_chars a.data, fun _ => rfl, by decide, by decide⟩

/-- C9: two distinct raw symbols with the same normalized form, both absent
from the old set, each produce their own event: detectNewListings does not
deduplicate by normalized form within one call. -/
theorem claim_C9_duplicate_normalized :
    normalizeSymbol "BTC-USD" = normalizeSymbol "BTC_USD" ∧
    (∀ now : Int,
      detectNewListings ["ETHUSDT"] ["BTC-USD", "BTC_USD"] "Coinbase" now =
        [{ exchange := "Coinbase", symbol := "BTC-USD", detectedAt := some now },
         { exchange := "Coinbase", symbol := "BTC_USD", detectedAt := some now }]) :=
  ⟨by decide, fun _ => rfl⟩

theorem jsDateGe_some_iff (d : Option Int) (b : Int) :
    jsDateGe d (some b) = true ↔ ∃ t, d = some t ∧ b ≤ t := by
  cases d with
  | none => simp [jsDateGe]
  | some t => simp [jsDateGe]

/-- C3: the retention pruner keeps exactly the order-preserved subsequence
of events whose detection timestamp is at least now minus 30 days, with an
inclusive lower bound: an event at exactly now − 30 days is retained, one
at now − 29 days is retained, one at now − 31 days is dropped; consequently
every retained entry has age at most the retention window. -/
theorem claim_C3_retention_prune :
    (∀ (now : Int) (ls : List NewListing), (cleanOldListings now ls).Sublist ls) ∧
    (∀ (now : Int) (ls : List NewListing) (l : NewListing),
      l ∈ cleanOldListings now ls ↔
        l ∈ ls ∧ ∃ t, l.detectedAt = some t ∧ now - RETENTION_DAYS * dayMs ≤ t) ∧
    (∀ (now : Int) (ex s : String),
      ({ exchange := ex, symbol := s, detectedAt := some (now - 30 * dayMs) } : NewListing) ∈
        cleanOldListings now
          [{ exchange := ex, symbol := s, detectedAt := some (now - 30 * dayMs) }]) ∧
    (∀ (now : Int) (ex s : String),
      ({ exchange := ex, symbol := s, detectedAt := some (now - 29 * dayMs) } : NewListing) ∈
        cleanOldListings now
          [{ exchange := ex, symbol := s, detectedAt := some (now - 29 * dayMs) }]) ∧
    (∀ (now : Int) (ex s : String),
      ({ exchange := ex, symbol := s, detectedAt := some (now - 31 * dayMs) } : NewListing) ∉
        cleanOldListings now
          [{ exchange := ex, symbol := s, detectedAt := some (now - 31 * dayMs) }]) := by
  refine ⟨?_, ?_, ?_, ?_, ?_⟩
  · intro now ls
    exact List.filter_sublist ls
  · intro now ls l
    simp only [cleanOldListings, List.mem_filter, jsDateGe_some_iff]
  · intro now ex s
    simp [cleanOldListings, jsDateGe, RETENTION_DAYS, dayMs]
  · intro now ex s
    simp [cleanOldListings, jsDateGe, RETENTION_DAYS, dayMs]
    omega
  · intro now ex s
    simp [cleanOldListings, jsDateGe, RETENTION_DAYS, dayMs]
    omega

/-- Witness for C3: a concrete event exactly at the cutoff instant is
retained. -/
theorem claim_C3_witness :
    ({ exchange := "Binance", symbol := "NEW",
        detectedAt := some (0 - 30 * dayMs) } : NewListing) ∈
      cleanOldListings 0
        [{ exchange := "Binance", symbol := "NEW",
            detectedAt := some (0 - 30 * dayMs) }] :=
  claim_C3_retention_prune.2.2.1 0 "Binance" "NEW"

/-- C10: an entry whose detectedAt string does not parse (modelled as
`none`, i.e. an Invalid Date whose NaN comparison is false) is always
excluded by the retention pruner, without any error. -/
theorem claim_C10_invalid_date_dropped (now : Int) (ls : List NewListing)
    (l : NewListing) (h : l.detectedAt = none) :
    l ∉ cleanOldListings now ls := by
  simp [cleanOldListings, List.mem_filter, h, jsDateGe]

/-- Witness for C10: a concrete malformed entry is removed. -/
theorem claim_C10_witness :
    ({ exchange := "Binance", symbol := "XYZ", detectedAt := none } : NewListing) ∉
      cleanOldListings 0
        [{ exchange := "Binance", symbol := "XYZ", detectedAt := none }] :=
  claim_C10_invalid_date_dropped 0 _ _ rfl

/-- Sample prior snapshot document used by the concrete orchestrator runs. -/
def olSample : ExchangeListings :=
  { lastUpdated := some 500
    exchanges :=
      { binance := ["OLDB"], coinbase := ["OLDC"], bybit := ["OLDY"]
        upbit := ["OLDU"], okx := ["OLDO"], kraken := ["OLDK"] } }

/-- Sample prior listing-log document used by the concrete orchestrator runs. -/
def ndSample : NewListingsData := { lastChecked := some 500, listings := [] }

/-- Sample prior status document used by the concrete orchestrator runs. -/
def psSample : StatusData :=
  { lastRun := some 500, lastSuccessfulRun := some 400
    status := "success", errors := [] }

/-- Sample fetch outcome with 2 of the 6 exchanges failing (Bybit and OKX). -/
def fSample : FetchResults :=
  { binance := .ok ["OLDB", "NEWB"], coinbase := .ok ["OLDC"]
    bybit := .error "timeout", upbit := .ok ["OLDU"]
    okx := .error "http 500", kraken := .ok ["OLDK"] }

/-- Sample fetch outcome with all 6 exchanges succeeding. -/
def fAllOk : FetchResults :=
  { binance := .ok ["OLDB"], coinbase := .ok ["OLDC"]
    bybit := .ok ["OLDY"], upbit := .ok ["OLDU"]
    okx := .ok ["OLDO"], kraken := .ok ["OLDK"] }

/-- C1: after a run whose per-exchange loop completes, the written status
tag is determined solely by the accumulated error count — "success" at 0
errors, "partial_success" at 1–5 errors, "failed" at 6; the error count
equals the number of failed fetches and never exceeds the 6 configured
exchanges, so "failed" occurs exactly when all 6 fetches failed. -/
theorem claim_C1_status_tag (startTime now : Int) (ol : ExchangeListings)
    (nd : NewListingsData) (ps : StatusData) (f : FetchResults) :
    ((updateListingsRun startTime now ol nd ps f).writtenStatus.status =
      (if (updateListingsRun startTime now ol nd ps f).writtenStatus.errors.length = 0
        then "success"
        else if (updateListingsRun startTime now ol nd ps f).writtenStatus.errors.length < 6
          then "partial_success"
          else "failed")) ∧
    (updateListingsRun startTime now ol nd ps f).writtenStatus.errors.length =
      countFailures f ∧
    countFailures f ≤ 6 := by
  refine ⟨rfl, ?_, ?_⟩
  · simp only [updateListingsRun, runErrors_length]
  · have h1 : failCount f.binance ≤ 1 := by cases f.binance <;> simp [failCount]
    have h2 : failCount f.coinbase ≤ 1 := by cases f.coinbase <;> simp [failCount]
    have h3 : failCount f.bybit ≤ 1 := by cases f.bybit <;> simp [failCount]
    have h4 : failCount f.upbit ≤ 1 := by cases f.upbit <;> simp [failCount]
    have h5 : failCount f.okx ≤ 1 := by cases f.okx <;> simp [failCount]
    have h6 : failCount f.kraken ≤ 1 := by cases f.kraken <;> simp [failCount]
    simp only [countFailures]
    omega

/-- C4: in the status written after a non-fatal run, lastSuccessfulRun is
the start time of the current run exactly when the error list is empty (given
that the previously persisted lastSuccessfulRun is not already the fresh
startTime instant); with at least one error it is copied forward unchanged
from the prior status document. -/
theorem claim_C4_last_successful_run (startTime now : Int) (ol : ExchangeListings)
    (nd : NewListingsData) (ps : StatusData) (f : FetchResults)
    (hfresh : ps.lastSuccessfulRun ≠ some startTime) :
    ((updateListingsRun startTime now ol nd ps f).writtenStatus.lastSuccessfulRun =
        some startTime ↔
      (updateListingsRun startTime now ol nd ps f).writtenStatus.errors = []) ∧
    ((updateListingsRun startTime now ol nd ps f).writtenStatus.errors ≠ [] →
      (updateListingsRun startTime now ol nd ps f).writtenStatus.lastSuccessfulRun =
        ps.lastSuccessfulRun) := by
  simp only [updateListingsRun]
  by_cases h : (runErrors f).length = 0
  · have hnil : runErrors f = [] := List.eq_nil_of_length_eq_zero h
    simp [h, hnil]
  · have hne : runErrors f ≠ [] := by
      intro hh
      exact h (by simp [hh])
    simp [h, hne, hfresh]

/-- Witness for C4: a fully successful concrete run stamps
lastSuccessfulRun with the start time of the run. -/
theorem claim_C4_witness :
    (updateListingsRun 1000 2000 olSample ndSample psSample fAllOk
      ).writtenStatus.lastSuccessfulRun = some 1000 := by
  have h := claim_C4_last_successful_run 1000 2000 olSample ndSample psSample fAllOk
    (by simp [psSample])
  exact h.1.mpr rfl

/-- C5: the snapshot document written at the end of a run maps every failed
exchange to exactly its prior symbol list and every successful exchange to
the freshly fetched list; concretely, with Bybit and OKX failing out of 6,
the status is "partial_success", the errors list has length 2,
lastSuccessfulRun is unchanged, the 4 successful entries are updated and
the 2 failed entries retain their prior values. -/
theorem claim_C5_snapshot_frame :
    (∀ (startTime now : Int) (ol : ExchangeListings) (nd : NewListingsData)
      (ps : StatusData) (f : FetchResults),
      ∃ ul : ExchangeListings,
        (updateListingsRun startTime now ol nd ps f).writtenListings = some ul ∧
        ul.lastUpdated = some now ∧
        (∀ e, f.binance = .error e → ul.exchanges.binance = ol.exchanges.binance) ∧
        (∀ s, f.binance = .ok s → ul.exchanges.binance = s) ∧
        (∀ e, f.coinbase = .error e → ul.exchanges.coinbase = ol.exchanges.coinbase) ∧
        (∀ s, f.coinbase = .ok s → ul.exchanges.coinbase = s) ∧
        (∀ e, f.bybit = .error e → ul.exchanges.bybit = ol.exchanges.bybit) ∧
        (∀ s, f.bybit = .ok s → ul.exchanges.bybit = s) ∧
        (∀ e, f.upbit = .error e → ul.exchanges.upbit = ol.exchanges.upbit) ∧
        (∀ s, f.upbit = .ok s → ul.exchanges.upbit = s) ∧
        (∀ e, f.okx = .error e → ul.exchanges.okx = ol.exchanges.okx) ∧
        (∀ s, f.okx = .ok s → ul.exchanges.okx = s) ∧
        (∀ e, f.kraken = .error e → ul.exchanges.kraken = ol.exchanges.kraken) ∧
        (∀ s, f.kraken = .ok s → ul.exchanges.kraken = s)) ∧
    ((updateListingsRun 1000 2000 olSample ndSample psSample fSample
        ).writtenStatus.status = "partial_success" ∧
      (updateListingsRun 1000 2000 olSample ndSample psSample fSample
        ).writtenStatus.errors.length = 2 ∧
      (updateListingsRun 1000 2000 olSample ndSample psSample fSample
        ).writtenStatus.lastSuccessfulRun = psSample.lastSuccessfulRun ∧
      (updateListingsRun 1000 2000 olSample ndSample psSample fSample
        ).writtenListings = some
          { lastUpdated := some 2000
            exchanges :=
              { binance := ["OLDB", "NEWB"], coinbase := ["OLDC"], bybit := ["OLDY"]
                upbit := ["OLDU"], okx := ["OLDO"], kraken := ["OLDK"] } }) := by
  constructor
  · intro startTime now ol nd ps f
    refine ⟨_, rfl, rfl, ?_, ?_, ?_, ?_, ?_, ?_, ?_, ?_, ?_, ?_, ?_, ?_⟩ <;>
      intro x hx <;> simp [runResults, fetchOutcome, hx]
  · refine ⟨rfl, rfl, rfl, rfl⟩

/-- Witness for C5: at the concrete 2-of-6-failures run, the failed Bybit
entry of the written snapshot retains its prior value. -/
theorem claim_C5_witness :
    ∃ ul : ExchangeListings,
      (updateListingsRun 1000 2000 olSample ndSample psSample fSample
        ).writtenListings = some ul ∧ ul.exchanges.bybit = ["OLDY"] := by
  obtain ⟨ul, hw, hlu, hbe, hbo, hce, hco, hye, hyo, hue, huo, hoe, hoo, hke, hko⟩ :=
    claim_C5_snapshot_frame.1 1000 2000 olSample ndSample psSample fSample
  refine ⟨ul, hw, ?_⟩
  rw [hye "timeout" rfl]
  rfl

/-- C6: a failure while loading prior state (either prior-state read
failing) yields a run that writes neither the snapshot nor the listing-log
document, writes a status document with status "failed", a single
synthetic Critical error entry and lastSuccessfulRun copied forward, and
re-signals the failure to the caller. -/
theorem claim_C6_fatal_failure (startTime now : Int)
    (pl : Except String ExchangeListings) (pnl : Except String NewListingsData)
    (ps : StatusData) (f : FetchResults)
    (h : (∃ e, pl = .error e) ∨ (∃ e, pnl = .error e)) :
    (updateListings startTime now pl pnl ps f).writtenListings = none ∧
    (updateListings startTime now pl pnl ps f).writtenNewListings = none ∧
    (updateListings startTime now pl pnl ps f).writtenStatus.status = "failed" ∧
    (∃ e, (updateListings startTime now pl pnl ps f).writtenStatus.errors =
      ["Critical: " ++ e]) ∧
    (updateListings startTime now pl pnl ps f).writtenStatus.lastSuccessfulRun =
      ps.lastSuccessfulRun ∧
    (updateListings startTime now pl pnl ps f).rethrown = true := by
  rcases h with ⟨e, he⟩ | ⟨e, he⟩
  · subst he
    exact ⟨rfl, rfl, rfl, ⟨e, rfl⟩, rfl, rfl⟩
  · subst he
    cases pl with
    | ok ol => exact ⟨rfl, rfl, rfl, ⟨e, rfl⟩, rfl, rfl⟩
    | error e2 => exact ⟨rfl, rfl, rfl, ⟨e2, rfl⟩, rfl, rfl⟩

/-- Witness for C6: a concrete unreadable snapshot document makes the run
write only a failed status and re-throw. -/
theorem claim_C6_witness :
    (updateListings 1000 2000 (.error "ENOENT") (.ok ndSample) psSample fSample
      ).writtenStatus.status = "failed" ∧
    (updateListings 1000 2000 (.error "ENOENT") (.ok ndSample) psSample fSample
      ).rethrown = true := by
  have h := claim_C6_fatal_failure 1000 2000 (.error "ENOENT") (.ok ndSample)
    psSample fSample (Or.inl ⟨"ENOENT", rfl⟩)
  exact ⟨h.2.2.1, h.2.2.2.2.2⟩
